import Mathlib

/-!
Verification of the Reactive Trader front-end glue code.

A shallow embedding of four source files of the Reactive Trader client
repository, together with theorems settling the specification claims:

* the FX trades grid component (`FxTrades`): its row-click FDC3 broadcast
  handler `tryBroadcastContext` and its rejected-row predicate `isRejected`;
* the OpenFin `LimitCheckerWindowFrame` header control handlers
  (close / minimize / maximize);
* the Vite build configuration (`setConfig`): build-target selection via the
  `TARGET` environment variable, the per-target file resolution of
  `targetBuildPlugin` (dev mode), the manifest/config `copyPlugin`, and the
  dev-server WebSocket proxy;
* the credit end-to-end test's final trade-identifier assertion.

JavaScript environment variables are modelled as `Option String`
(`none` = the variable is undefined); JavaScript truthiness of such a value
(`undefined` and `""` are falsy) is `truthy`; the `x || d` default idiom is
`jsOr`.  The filesystem seen by `readdirSync` is modelled as a function from
directory paths to directory listings.
-/

/-- JavaScript truthiness of an environment-variable value:
`undefined` and the empty string are falsy, all other strings truthy. -/
def truthy : Option String → Bool
  | none => false
  | some s => s ≠ ""

/-- The JavaScript `x || d` defaulting idiom on an environment-variable
value: yields `d` when the value is undefined or the empty string. -/
def jsOr (x : Option String) (d : String) : String :=
  match x with
  | none => d
  | some s => if s = "" then d else s

/-- Split a character list on each non-overlapping occurrence of `sep`,
scanning left to right; `acc` is the reversed current segment and `fuel`
bounds the recursion (any `fuel > length` is exact). -/
def splitOnCharsAux (sep : List Char) :
    Nat → List Char → List Char → List (List Char)
  | 0, _, acc => [acc.reverse]
  | _ + 1, [], acc => [acc.reverse]
  | fuel + 1, c :: rest, acc =>
    if sep.isPrefixOf (c :: rest) then
      acc.reverse :: splitOnCharsAux sep fuel ((c :: rest).drop sep.length) []
    else
      splitOnCharsAux sep fuel rest (c :: acc)

/-- JavaScript `s.split(sep)` with a non-empty literal string separator:
splits on each non-overlapping occurrence, scanning left to right (which is
also the behaviour of Lean's `String.splitOn`, restated here structurally). -/
def jsSplit (s sep : String) : List String :=
  if sep.data = [] then [s]
  else (splitOnCharsAux sep.data (s.data.length + 1) s.data []).map
    (fun l => ⟨l⟩)

/-- JavaScript `s.replace(pat, rep)` with a global literal pattern:
replaces every non-overlapping occurrence, scanning left to right. -/
def jsReplace (s pat rep : String) : String :=
  String.intercalate rep (jsSplit s pat)

/-- JavaScript `s.toUpperCase()` for the ASCII manifests involved here. -/
def jsToUpper (s : String) : String :=
  ⟨s.data.map Char.toUpper⟩

/-- JavaScript `s.endsWith(suffix)`. -/
def jsEndsWith (s suffix : String) : Bool :=
  suffix.data.isSuffixOf s.data

/-- An FX trade record as used by the FX trades grid; only the fields the
verified handlers read (`symbol`, `status`) are modelled. -/
structure FxTrade where
  symbol : String
  status : String
  deriving DecidableEq, Repr

/-- An FDC3 instrument identifier, `{ ticker }`. -/
structure InstrumentId where
  ticker : String
  deriving DecidableEq, Repr

/-- An FDC3 context object, `{ type, id }`. -/
structure Fdc3Context where
  type : String
  id : InstrumentId
  deriving DecidableEq, Repr

/-- The `FxTrades` row-click handler `tryBroadcastContext`: builds the
context `{ type: "fdc3.instrument", id: { ticker: trade.symbol } }` and
broadcasts it exactly when `window.fdc3` is present.  The result is the
context passed to `broadcast`, or `none` when no broadcast call is made. -/
def tryBroadcastContext (fdc3Present : Bool) (trade : FxTrade) :
    Option Fdc3Context :=
  let context : Fdc3Context :=
    { type := "fdc3.instrument", id := { ticker := trade.symbol } }
  if fdc3Present then some context else none

/-- The `FxTrades` rejected-row predicate:
`(row: FxTrade) => row.status === "Rejected"`. -/
def isRejected (row : FxTrade) : Bool :=
  row.status == "Rejected"

/-- A call into the host container's window API (`fin.Window`):
the operations the `LimitCheckerWindowFrame` handlers may perform. -/
inductive WinOp where
  | close
  | minimize
  | maximize
  | restore
  | getState
  deriving DecidableEq, Repr

/-- Whether a window operation changes the window's state: `getState` is a
pure query, every other operation is state-changing. -/
def WinOp.isStateChanging : WinOp → Bool
  | .getState => false
  | _ => true

/-- Trace of window-API calls made by the `close` header control handler:
`() => win.close()`. -/
def closeHandler : List WinOp := [WinOp.close]

/-- Trace of window-API calls made by the `minimize` header control handler:
`() => win.minimize()`. -/
def minimizeHandler : List WinOp := [WinOp.minimize]

/-- Trace of window-API calls made by the `maximize` header control handler,
as a function of the state string reported by `win.getState()`:
`win.getState().then(state => state === "maximized" ? win.restore() :
win.maximize())`. -/
def maximizeHandler (state : String) : List WinOp :=
  WinOp.getState ::
    (if state == "maximized" then [WinOp.restore] else [WinOp.maximize])

/-- The basename of a path: the component after the last `/`
(Node `path.parse(s).base`). -/
def pathBase (s : String) : String :=
  (jsSplit s "/").getLastD ""

/-- The directory of a path: everything before the last `/`, with Node's
conventions that a path with no `/` has dir `""` and that the root dir is
`"/"` (Node `path.parse(s).dir`). -/
def pathDir (s : String) : String :=
  let parts := jsSplit s "/"
  if parts.length ≤ 1 then ""
  else
    let d := String.intercalate "/" parts.dropLast
    if d = "" then "/" else d

/-- Split a basename into Node's `name` and `ext`: `ext` runs from the last
dot, except that a leading-dot name such as `.bashrc` has no extension. -/
def splitBaseExt (base : String) : String × String :=
  let parts := jsSplit base "."
  if parts.length ≤ 1 then (base, "")
  else
    let name := String.intercalate "." parts.dropLast
    if name = "" then (base, "")
    else (name, "." ++ parts.getLastD "")

/-- The fields of Node's `path.parse` used by the build plugins. -/
structure ParsedPath where
  dir : String
  name : String
  ext : String
  deriving DecidableEq, Repr

/-- Node `path.parse`, restricted to the `dir`/`name`/`ext` fields. -/
def pathParse (s : String) : ParsedPath :=
  { dir := pathDir s
    name := (splitBaseExt (pathBase s)).1
    ext := (splitBaseExt (pathBase s)).2 }

/-- A filesystem as seen by `readdirSync`: maps a directory path to the
list of entry names it contains. -/
def Fs : Type := String → List String

/-- The dev-mode branch of `targetBuildPlugin(dev, target).resolveId`:

```
const extension = source.split(".")[1]
if (extension !== "ts" && extension !== "tsx") return null
const file = path.parse(source)
const files = readdirSync("." + file.dir)
if (!files.includes(`${file.name}.${target}.${extension}`)) return null
const mockPath = `${file.dir}/${file.name}.${target}.${extension}`
return this.resolve(mockPath, importer)
```

The successful `this.resolve(mockPath, importer)` is modelled as
`some mockPath`; `null` as `none`.  Note the code reads the "extension" as
the SECOND dot-separated segment of the raw source string, not as the
parsed extension. -/
def targetBuildResolveIdDev (target : String) (fs : Fs) (source : String) :
    Option String :=
  match (jsSplit source ".").get? 1 with
  | none => none
  | some extension =>
    if extension ≠ "ts" ∧ extension ≠ "tsx" then none
    else
      let file := pathParse source
      let files := fs ("." ++ file.dir)
      if files.contains (file.name ++ "." ++ target ++ "." ++ extension) then
        some (file.dir ++ "/" ++ file.name ++ "." ++ target ++ "." ++
          extension)
      else none

/-- The claim-side reading of "the import's extension": the extension of
the parsed source path (`.ts` / `.tsx`), used to state what the spec says
`targetBuildPlugin` does in dev mode. -/
def sourceHasTsExt (source : String) : Prop :=
  (pathParse source).ext = ".ts" ∨ (pathParse source).ext = ".tsx"

/-- The OpenFin runtime version substituted into manifests. -/
def OPENFIN_RUNTIME : String := "31.112.75.4"

/-- `Number(process.env.PORT) || 1917`, modelled for nonnegative integer
`PORT` values: an undefined, unparsable or zero value yields 1917. -/
def localPort (PORT : Option String) : Nat :=
  match PORT with
  | none => 1917
  | some s =>
    match s.toNat? with
    | none => 1917
    | some 0 => 1917
    | some n => n

/-- `getBaseUrl(dev)`: the local dev server URL in dev, otherwise the
concatenation of the `DOMAIN` and `URL_PATH` environment variables
(each defaulting to the empty string). -/
def getBaseUrl (dev : Bool) (port : Nat) (DOMAIN URL_PATH : Option String) :
    String :=
  if dev then "http://localhost:" ++ toString port
  else DOMAIN.getD "" ++ URL_PATH.getD ""

/-- The `transform` applied by `copyPlugin` to copied JSON manifests:
substitutes `<BASE_URL>`, rewrites `web.prod.` to `www.`, and substitutes
`<ENV_NAME>`, `<ENV_SUFFIX>` (empty for prod, else a space and the
uppercased environment name) and `<OPENFIN_RUNTIME>`. -/
def copyTransform (isDev : Bool) (env : String) (port : Nat)
    (DOMAIN URL_PATH : Option String) (contents : String) : String :=
  jsReplace
    (jsReplace
      (jsReplace
        (jsReplace
          (jsReplace contents "<BASE_URL>"
            (getBaseUrl (isDev || env == "local") port DOMAIN URL_PATH))
          "web.prod." "www.")
        "<ENV_NAME>" env)
      "<ENV_SUFFIX>" (if env == "prod" then "" else " " ++ jsToUpper env))
    "<OPENFIN_RUNTIME>" OPENFIN_RUNTIME

/-- One entry of the `viteStaticCopy` target list: source glob, destination,
optional rename, and whether the placeholder `transform` is attached. -/
structure CopyTarget where
  src : String
  dest : String
  rename : Option String
  hasTransform : Bool
  deriving DecidableEq, Repr

/-- The target list `copyPlugin(isDev, buildTarget, env)` passes to
`viteStaticCopy`: for `"openfin"` the OpenFin JSON configs (plus the
back-compat `app.json` copy of `rt-fx.json`) and the plugin directory;
for every other target the PWA `manifest.json` and splashscreens. -/
def copyPluginTargets (buildTarget : String) : List CopyTarget :=
  if buildTarget == "openfin" then
    [{ src := "public-openfin/*.json", dest := "config", rename := none,
       hasTransform := true },
     { src := "public-openfin/rt-fx.json", dest := "config",
       rename := some "app.json", hasTransform := true },
     { src := "public-openfin/plugin/*", dest := "plugin", rename := none,
       hasTransform := false }]
  else
    [{ src := "public-pwa/manifest.json", dest := "", rename := none,
       hasTransform := true },
     { src := "public-pwa/splashscreens/*", dest := "splashscreens",
       rename := none, hasTransform := false }]

/-- The TypeScript union `type BuildTarget = "web" | "openfin" |
"finsemble"`. -/
inductive BuildTarget where
  | web
  | openfin
  | finsemble
  deriving DecidableEq, Repr

/-- The string value of a `BuildTarget`. -/
def BuildTarget.toStr : BuildTarget → String
  | .web => "web"
  | .openfin => "openfin"
  | .finsemble => "finsemble"

/-- The environment name selected by `setConfig`:
`process.env.ENVIRONMENT || "local"`. -/
def envName (ENVIRONMENT : Option String) : String :=
  jsOr ENVIRONMENT "local"

/-- The build target selected by `setConfig`:
`(process.env.TARGET as BuildTarget) || "web"`.  The TypeScript cast is
unchecked, so the selected value is modelled as the raw string. -/
def selectedBuildTarget (TARGET : Option String) : String :=
  jsOr TARGET "web"

/-- The default WebSocket gateway used when `VITE_HYDRA_URL` is not set. -/
def defaultHydraGateway : String :=
  "wss://trading-web-gateway-rt-dev.demo.hydra.weareadaptive.com"

/-- One entry of the dev server's `proxy` table. -/
structure ProxyEntry where
  path : String
  target : String
  changeOrigin : Bool
  ws : Bool
  deriving DecidableEq, Repr

/-- The dev-server proxy computed by `setConfig`: `undefined` when
`VITE_MOCKS` is truthy, otherwise the single `"/ws"` entry targeting
`VITE_HYDRA_URL || <default demo gateway>` with `changeOrigin` and `ws`
enabled. -/
def devServerProxy (VITE_MOCKS VITE_HYDRA_URL : Option String) :
    Option ProxyEntry :=
  if truthy VITE_MOCKS then none
  else
    some { path := "/ws"
           target := jsOr VITE_HYDRA_URL defaultHydraGateway
           changeOrigin := true
           ws := true }

/-- A plugin instantiation appearing in the list `setConfig` assembles,
recording the arguments each plugin factory receives. -/
inductive PluginSpec where
  | targetBuild (dev : Bool) (target : String)
  | indexSwitch (target : String)
  | apiMockReplacer
  | react
  | splitVendorChunk
  | customPreload
  | injectWebServiceWorker (mode : String)
  | staticCopy (isDev : Bool) (target : String) (env : String)
  | injectHtml (isDev : Bool) (target : String) (env : String)
  | fontFacePreload
  deriving DecidableEq, Repr

/-- The plugin list assembled by `setConfig`: the target-build and
index-switch plugins (always), the API mock replacer (when `VITE_MOCKS`),
React, the production-only chunk/preload plugins, the web-only service
worker, the static copy and HTML injection plugins — all dropped when
`STORYBOOK === "true"` — and finally the font preload plugin. -/
def setConfigPlugins (mode : String)
    (ENVIRONMENT TARGET VITE_MOCKS STORYBOOK : Option String) :
    List PluginSpec :=
  let env := envName ENVIRONMENT
  let buildTarget := selectedBuildTarget TARGET
  let isDev := mode == "development"
  let devPlugins : List PluginSpec :=
    [.targetBuild isDev buildTarget, .indexSwitch buildTarget]
      ++ (if truthy VITE_MOCKS then [.apiMockReplacer] else [])
      ++ [.react]
      ++ (if !isDev then [.splitVendorChunk, .customPreload] else [])
      ++ (if buildTarget == "web" then [.injectWebServiceWorker mode] else [])
      ++ [.staticCopy isDev buildTarget env, .injectHtml isDev buildTarget env]
  (if STORYBOOK == some "true" then [] else devPlugins) ++ [.fontFacePreload]

/-- The trade identifier the credit end-to-end test extracts from the
"view trade" button text: `btnTxt.split(" ")[2]`, the third space-separated
token (`none` when the text has fewer than three tokens). -/
def extractTradeId (btnTxt : String) : Option String :=
  (jsSplit btnTxt " ").get? 2

/-- The final steps of the credit end-to-end test: extract the trade id
from the button text, locate in the blotter view the first element whose
text equals it exactly (`getByText(tradeId, { exact: true })`), read that
element's text back, and assert `expect(tradeId).toEqual(blotterId)`.
Returns `true` exactly when the test's final assertion passes (a missing
token or missing blotter element fails the test). -/
def creditFinalAssertion (btnTxt : String) (blotterTexts : List String) :
    Bool :=
  match extractTradeId btnTxt with
  | none => false
  | some tradeId =>
    match blotterTexts.find? (fun t => t == tradeId) with
    | none => false
    | some blotterId => tradeId == blotterId

/-- The dev-mode resolution behaviour claimed of `targetBuildPlugin`, stated
following the spec's words: for every import whose source has extension
`ts` or `tsx`, the import is rewritten to `<name>.<target>.<extension>` in
the same directory if and only if a file with exactly that name exists in
the imported file's directory, and every other import resolves to null. -/
def targetBuildDevClaim : Prop :=
  (∀ (target source : String) (fs : Fs),
    sourceHasTsExt source →
      targetBuildResolveIdDev target fs source =
        (if (fs ("." ++ (pathParse source).dir)).contains
              ((pathParse source).name ++ "." ++ target ++
                (pathParse source).ext) = true
         then
           some ((pathParse source).dir ++ "/" ++ (pathParse source).name ++
             "." ++ target ++ (pathParse source).ext)
         else none)) ∧
  (∀ (target source : String) (fs : Fs),
    ¬ sourceHasTsExt source → targetBuildResolveIdDev target fs source = none)

/-- C1: the FX trades row-click handler broadcasts an FDC3 context exactly
when `window.fdc3` is present, and the broadcast context is exactly
`{ type: "fdc3.instrument", id: { ticker: trade.symbol } }`; when
`window.fdc3` is absent no broadcast call is made. -/
theorem tryBroadcastContext_spec :
    ∀ trade : FxTrade,
      tryBroadcastContext true trade =
        some { type := "fdc3.instrument", id := { ticker := trade.symbol } } ∧
      tryBroadcastContext false trade = none ∧
      ∀ fdc3Present : Bool,
        (tryBroadcastContext fdc3Present trade).isSome = fdc3Present := by
  intro trade
  refine ⟨rfl, rfl, ?_⟩
  intro p
  cases p <;> rfl

/-- C2: the FX trades grid's rejected-row predicate holds exactly when the
row's status is the string `"Rejected"` (so no other status value,
including differently cased variants, marks a row as rejected). -/
theorem isRejected_spec :
    ∀ row : FxTrade, isRejected row = true ↔ row.status = "Rejected" := by
  intro row
  simp [isRejected]

/-- Witness for `isRejected_spec` at a concrete row. -/
theorem isRejected_spec_witness :
    isRejected { symbol := "EURUSD", status := "Rejected" } = true :=
  (isRejected_spec _).mpr rfl

/-- C3: each `LimitCheckerWindowFrame` header control handler delegates
solely to the container window API: the close handler calls exactly
`win.close()`, the minimize handler exactly `win.minimize()`, and the
maximize handler queries `win.getState()` and then calls either
`win.restore()` or `win.maximize()`; no handler performs any other
state-changing operation. -/
theorem limitCheckerHandlers_spec :
    closeHandler = [WinOp.close] ∧
    minimizeHandler = [WinOp.minimize] ∧
    closeHandler.filter WinOp.isStateChanging = [WinOp.close] ∧
    minimizeHandler.filter WinOp.isStateChanging = [WinOp.minimize] ∧
    ∀ state : String,
      maximizeHandler state =
        [WinOp.getState,
         if state == "maximized" then WinOp.restore else WinOp.maximize] ∧
      (maximizeHandler state).filter WinOp.isStateChanging =
        [if state == "maximized" then WinOp.restore else WinOp.maximize] := by
  refine ⟨rfl, rfl, rfl, rfl, ?_⟩
  intro state
  cases h : state == "maximized" <;>
    simp [maximizeHandler, h, WinOp.isStateChanging]

/-- C9: the maximize control is a toggle: after querying the window state it
calls `win.restore()` when the reported state is exactly `"maximized"` and
`win.maximize()` for every other reported state, and it never calls both. -/
theorem maximizeToggle_spec :
    ∀ state : String,
      maximizeHandler "maximized" = [WinOp.getState, WinOp.restore] ∧
      (state ≠ "maximized" →
        maximizeHandler state = [WinOp.getState, WinOp.maximize]) ∧
      ¬(WinOp.restore ∈ maximizeHandler state ∧
        WinOp.maximize ∈ maximizeHandler state) := by
  intro state
  refine ⟨rfl, ?_, ?_⟩
  · intro h
    simp [maximizeHandler, h]
  · cases h : state == "maximized" <;>
      simp [maximizeHandler, h]

/-- Witness for `maximizeToggle_spec` at the reported state `"normal"`. -/
theorem maximizeToggle_spec_witness :
    maximizeHandler "maximized" = [WinOp.getState, WinOp.restore] ∧
    maximizeHandler "normal" = [WinOp.getState, WinOp.maximize] ∧
    ¬(WinOp.restore ∈ maximizeHandler "normal" ∧
      WinOp.maximize ∈ maximizeHandler "normal") :=
  ⟨(maximizeToggle_spec "normal").1,
   (maximizeToggle_spec "normal").2.1 (by decide),
   (maximizeToggle_spec "normal").2.2⟩

/-- C10: with `TARGET` unset the build target defaults to `"web"`, and with
`ENVIRONMENT` unset the environment name defaults to `"local"`. -/
theorem configDefaults_spec :
    selectedBuildTarget none = "web" ∧ envName none = "local" :=
  ⟨rfl, rfl⟩

/-- C4: the `BuildTarget` type ranges over exactly the three values `web`,
`openfin` and `finsemble`; the build target is selected from the `TARGET`
environment variable (defaulting to `web`), and that one selected value
parameterises the target-build, index-switch and static-copy plugins
assembled by `setConfig`. -/
theorem buildTargetSelection_spec :
    (∀ t : BuildTarget,
        t = BuildTarget.web ∨ t = BuildTarget.openfin ∨
        t = BuildTarget.finsemble) ∧
    (BuildTarget.web.toStr = "web" ∧ BuildTarget.openfin.toStr = "openfin" ∧
      BuildTarget.finsemble.toStr = "finsemble") ∧
    (∀ TARGET, selectedBuildTarget TARGET = jsOr TARGET "web") ∧
    ∀ mode ENVIRONMENT TARGET VITE_MOCKS STORYBOOK,
      STORYBOOK ≠ some "true" →
        PluginSpec.targetBuild (mode == "development")
            (selectedBuildTarget TARGET)
          ∈ setConfigPlugins mode ENVIRONMENT TARGET VITE_MOCKS STORYBOOK ∧
        PluginSpec.indexSwitch (selectedBuildTarget TARGET)
          ∈ setConfigPlugins mode ENVIRONMENT TARGET VITE_MOCKS STORYBOOK ∧
        PluginSpec.staticCopy (mode == "development")
            (selectedBuildTarget TARGET) (envName ENVIRONMENT)
          ∈ setConfigPlugins mode ENVIRONMENT TARGET VITE_MOCKS STORYBOOK := by
  refine ⟨?_, ⟨rfl, rfl, rfl⟩, fun _ => rfl, ?_⟩
  · intro t
    cases t <;> simp
  · intro mode ENVIRONMENT TARGET VITE_MOCKS STORYBOOK h
    have hsb : (STORYBOOK == some "true") = false := by
      simpa using h
    refine ⟨?_, ?_, ?_⟩ <;>
      simp [setConfigPlugins, hsb]

/-- Witness for `buildTargetSelection_spec` at a concrete production
OpenFin configuration. -/
theorem buildTargetSelection_spec_witness :
    PluginSpec.targetBuild ("production" == "development")
        (selectedBuildTarget (some "openfin"))
      ∈ setConfigPlugins "production" none (some "openfin") none none :=
  (buildTargetSelection_spec.2.2.2 "production" none (some "openfin") none
    none (by decide)).1

/-- C6: the dev server proxies `/ws` to `VITE_HYDRA_URL` when set and to
the default demo gateway otherwise, with `ws` and `changeOrigin` enabled;
when `VITE_MOCKS` is set (truthy, as the code tests it) no proxy is
configured at all. -/
theorem devServerProxy_spec :
    (∀ VITE_MOCKS VITE_HYDRA_URL,
        truthy VITE_MOCKS = true →
          devServerProxy VITE_MOCKS VITE_HYDRA_URL = none) ∧
    (∀ VITE_MOCKS VITE_HYDRA_URL,
        truthy VITE_MOCKS = false →
          devServerProxy VITE_MOCKS VITE_HYDRA_URL =
            some { path := "/ws",
                   target := jsOr VITE_HYDRA_URL defaultHydraGateway,
                   changeOrigin := true, ws := true }) ∧
    (∀ u, u ≠ "" → jsOr (some u) defaultHydraGateway = u) ∧
    jsOr none defaultHydraGateway = defaultHydraGateway := by
  refine ⟨?_, ?_, ?_, rfl⟩
  · intro vm vh h
    simp [devServerProxy, h]
  · intro vm vh h
    simp [devServerProxy, h]
  · intro u h
    simp [jsOr, h]

/-- Witness for `devServerProxy_spec` at concrete environment values. -/
theorem devServerProxy_spec_witness :
    devServerProxy (some "1") none = none ∧
    devServerProxy none (some "wss://gw.example") =
      some { path := "/ws", target := jsOr (some "wss://gw.example")
               defaultHydraGateway, changeOrigin := true, ws := true } ∧
    jsOr (some "wss://gw.example") defaultHydraGateway = "wss://gw.example" :=
  ⟨devServerProxy_spec.1 (some "1") none (by decide),
   devServerProxy_spec.2.1 none (some "wss://gw.example") (by decide),
   devServerProxy_spec.2.2.1 "wss://gw.example" (by decide)⟩

/-- C7: for the `openfin` target the copy plugin copies the OpenFin JSON
configs (including the back-compat `rt-fx.json` renamed to `app.json`) and
the plugin directory, and for every other target the PWA `manifest.json`
and splashscreens; every copied JSON carries the transform, which
substitutes `<BASE_URL>`, `<ENV_NAME>`, `<ENV_SUFFIX>` and
`<OPENFIN_RUNTIME>` according to the environment. -/
theorem copyPlugin_spec :
    copyPluginTargets "openfin" =
      [{ src := "public-openfin/*.json", dest := "config", rename := none,
         hasTransform := true },
       { src := "public-openfin/rt-fx.json", dest := "config",
         rename := some "app.json", hasTransform := true },
       { src := "public-openfin/plugin/*", dest := "plugin", rename := none,
         hasTransform := false }] ∧
    (∀ buildTarget, buildTarget ≠ "openfin" →
      copyPluginTargets buildTarget =
        [{ src := "public-pwa/manifest.json", dest := "", rename := none,
           hasTransform := true },
         { src := "public-pwa/splashscreens/*", dest := "splashscreens",
           rename := none, hasTransform := false }]) ∧
    (∀ buildTarget ct, ct ∈ copyPluginTargets buildTarget →
      jsEndsWith ct.src ".json" = true → ct.hasTransform = true) ∧
    copyTransform false "uat" 1917 (some "https://example.com") (some "/rt")
        "<BASE_URL>;<ENV_NAME>;<ENV_SUFFIX>;<OPENFIN_RUNTIME>" =
      "https://example.com/rt;uat; UAT;31.112.75.4" := by
  refine ⟨rfl, ?_, ?_, by decide⟩
  · intro bt h
    simp [copyPluginTargets, h]
  · intro bt ct hmem hjson
    cases h : bt == "openfin" <;> simp [copyPluginTargets, h] at hmem
    · rcases hmem with rfl | rfl
      · rfl
      · exact absurd hjson (by decide)
    · rcases hmem with rfl | rfl | rfl
      · rfl
      · rfl
      · exact absurd hjson (by decide)

/-- Witness for `copyPlugin_spec` at the `web` target and its JSON
manifest entry. -/
theorem copyPlugin_spec_witness :
    ({ src := "public-pwa/manifest.json", dest := "", rename := none,
       hasTransform := true } : CopyTarget).hasTransform = true ∧
    copyPluginTargets "web" =
      [{ src := "public-pwa/manifest.json", dest := "", rename := none,
         hasTransform := true },
       { src := "public-pwa/splashscreens/*", dest := "splashscreens",
         rename := none, hasTransform := false }] :=
  ⟨copyPlugin_spec.2.2.1 "web"
      { src := "public-pwa/manifest.json", dest := "", rename := none,
        hasTransform := true } (by decide) (by decide),
   copyPlugin_spec.2.1 "web" (by decide)⟩

/-- C8: the credit end-to-end test's final assertion passes exactly when
the trade identifier extracted from the "view trade" button text (its third
space-separated token) and the identifier text found in the blotter view
are equal, character for character. -/
theorem creditAssertion_spec :
    ∀ (btnTxt : String) (blotterTexts : List String),
      creditFinalAssertion btnTxt blotterTexts = true ↔
        ∃ tradeId blotterId,
          extractTradeId btnTxt = some tradeId ∧
          blotterTexts.find? (fun t => t == tradeId) = some blotterId ∧
          tradeId = blotterId := by
  intro btnTxt blotterTexts
  cases hx : extractTradeId btnTxt with
  | none => simp [creditFinalAssertion, hx]
  | some tid =>
    cases hf : blotterTexts.find? (fun t => t == tid) with
    | none => simp [creditFinalAssertion, hx, hf]
    | some b =>
      have hb : b = tid := by simpa using List.find?_some hf
      subst hb
      simp [creditFinalAssertion, hx, hf]

/-- Witness for `creditAssertion_spec` at a concrete button text and
blotter content. -/
theorem creditAssertion_spec_witness :
    creditFinalAssertion "View trade 12345" ["12345"] = true :=
  (creditAssertion_spec "View trade 12345" ["12345"]).mpr
    ⟨"12345", "12345", by decide, by decide, rfl⟩

/-- C5 counterexample: the import `./a.ts` has parsed extension `.ts` and a
per-target sibling `a.web.ts` present in every directory listing, yet the
dev-mode `resolveId` returns null, because the code reads the "extension"
as the second dot-separated segment of the raw source (here `/a`); so the
claimed characterisation of the plugin is false. -/
theorem targetBuildDevClaim_counterexample : ¬ targetBuildDevClaim := by
  intro h
  have h2 := h.1 "web" "./a.ts" (fun _ => ["a.ts", "a.web.ts"])
    (Or.inl (by decide))
  exact absurd h2 (by decide)

/-- C5 (amended): in dev mode, `targetBuildPlugin`'s `resolveId` rewrites
an import exactly when the second dot-separated segment of the raw source
string is `ts` or `tsx` and a file `<name>.<target>.<segment>` appears in
the listing of `"." ++ <parsed dir>`; the rewritten id is
`<dir>/<name>.<target>.<segment>`, and every other import resolves to
null. -/
theorem targetBuildResolveIdDev_amended :
    ∀ (target source : String) (fs : Fs) (p : String),
      targetBuildResolveIdDev target fs source = some p ↔
        ∃ extension, (jsSplit source ".").get? 1 = some extension ∧
          (extension = "ts" ∨ extension = "tsx") ∧
          (fs ("." ++ (pathParse source).dir)).contains
            ((pathParse source).name ++ "." ++ target ++ "." ++ extension)
            = true ∧
          p = (pathParse source).dir ++ "/" ++ (pathParse source).name ++
            "." ++ target ++ "." ++ extension := by
  intro target source fs p
  unfold targetBuildResolveIdDev
  cases hx : (jsSplit source ".").get? 1 with
  | none => simp
  | some e =>
    by_cases h1 : e ≠ "ts" ∧ e ≠ "tsx"
    · have h1' : ¬(e = "ts" ∨ e = "tsx") := by tauto
      simp [h1, h1']
    · have h1' : e = "ts" ∨ e = "tsx" := by tauto
      by_cases h2 :
          (fs ("." ++ (pathParse source).dir)).contains
            ((pathParse source).name ++ "." ++ target ++ "." ++ e) = true
      · simp [h1, h1', h2, eq_comm]
      · have h2m : ¬((pathParse source).name ++ "." ++ target ++ "." ++ e ∈
            fs ("." ++ (pathParse source).dir)) := by simpa using h2
        simp [h1, h2, h2m]

/-- Witness for `targetBuildResolveIdDev_amended`: a single-dot source
`a.ts` with the sibling `a.web.ts` present is rewritten to `/a.web.ts`. -/
theorem targetBuildResolveIdDev_amended_witness :
    targetBuildResolveIdDev "web" (fun _ => ["a.ts", "a.web.ts"]) "a.ts" =
      some "/a.web.ts" :=
  (targetBuildResolveIdDev_amended "web" "a.ts"
      (fun _ => ["a.ts", "a.web.ts"]) "/a.web.ts").mpr
    ⟨"ts", by decide, Or.inl rfl, by decide, by decide⟩
